import Mathlib

/-
Shallow embedding of the OpenTSDBClient query-builder library
(opentsdb_py_client/opentsdb.py and opentsdb_py_client/utils.py).

Python dicts are modelled as insertion-ordered association lists with
unique keys; dict assignment updates in place and appends new keys at
the end, exactly as CPython dicts behave.  Python str() of None is
"None", of True/False is "True"/"False".  Fallible Python code
(raising TypeError or NotImplementedError) is modelled with Except.
-/

namespace OpenTSDB

/-- Python str() of a bool: "True" or "False". -/
def pyBool (b : Bool) : String := if b then "True" else "False"

/-- Python rendering of an optional string inside an f-string: None prints as "None". -/
def optNoneStr : Option String → String
  | none => "None"
  | some s => s

/-- Errors raised by the modelled Python code. -/
inductive PyError where
  | notImplementedError
  | typeError
deriving DecidableEq, Repr

/-- Filter (opentsdb.py lines 482-491): one tag-filter clause. -/
structure Filter where
  type : Option String := none
  tagk : Option String := none
  filter : Option String := none
  group_by : Option Bool := none
deriving DecidableEq, Repr

/-- Filter.__str__ (opentsdb.py line 491): tagk=type(filter). -/
def Filter.str (f : Filter) : String :=
  optNoneStr f.tagk ++ "=" ++ optNoneStr f.type ++ "(" ++ optNoneStr f.filter ++ ")"

/-- RateOptions (opentsdb.py lines 470-479). -/
structure RateOptions where
  counter : Option Bool := none
  counter_max : Option Int := none
  reset_value : Option Int := none
  drop_resets : Option Bool := none
deriving DecidableEq, Repr

/-- RateOptions.__str__ (opentsdb.py line 479): brace-enclosed positional
triple counter,counter_max,reset_value; each unset field renders as the
empty string; drop_resets is never read. -/
def RateOptions.str (r : RateOptions) : String :=
  "\x7b" ++ (match r.counter with | none => "" | some b => pyBool b) ++ ","
        ++ (match r.counter_max with | none => "" | some n => toString n) ++ ","
        ++ (match r.reset_value with | none => "" | some n => toString n) ++ "\x7d"

/-- The two sub-query builder subclasses of QueryBuilder. -/
inductive QueryKind where
  | metric
  | tsuid
deriving DecidableEq, Repr

/-- QueryBuilder (opentsdb.py lines 396-409): the shared field set of
MetricQueryBuilder and TSUIDQueryBuilder.  kind records which subclass
the object was constructed as.  Each percentile entry stands for the
Python str() rendering of the float passed in (only that rendering is
ever used by the code). -/
structure QueryBuilder where
  kind : QueryKind
  aggregator : Option String := none
  metric : Option String := none
  rate : Option Bool := none
  rate_options : Option RateOptions := none
  downsample : Option String := none
  filters : List Filter := []
  explicit_tags : Option Bool := none
  percentiles : List String := []
  rollup_usage : Option String := none
deriving DecidableEq, Repr

/-- Class attribute MetricQueryBuilder.TYPE (opentsdb.py line 413). -/
def MetricQueryBuilder.TYPE : String := "m"

/-- Class attribute TSUIDQueryBuilder.TYPE (opentsdb.py line 466). -/
def TSUIDQueryBuilder.TYPE : String := "tsuid"

/-- MetricQueryBuilder.build (opentsdb.py lines 415-462), translated
let-by-let from the sequential string concatenation.  Appending None to
a str raises TypeError in Python, so a missing metric is an error; a
missing aggregator renders as "None" inside the f-string and does not
fail. -/
def MetricQueryBuilder.build (q : QueryBuilder) : Except PyError (String × String) :=
  let string0 := optNoneStr q.aggregator ++ ":"
  let string1 := match q.rate with
    | none => string0
    | some r =>
        string0 ++ pyBool r ++
          (match q.rate_options with | none => "" | some ro => ro.str) ++ ":"
  let string2 := match q.downsample with
    | none => string1
    | some d => string1 ++ d ++ ":"
  let string3 :=
    if q.percentiles.length > 0 then
      string2 ++ "percentiles[" ++ String.intercalate "," q.percentiles ++ "]:"
    else string2
  let string4 := match q.explicit_tags with
    | none => string3
    | some b => string3 ++ pyBool b
  match q.metric with
  | none => .error .typeError
  | some m =>
    let string5 := string4 ++ m
    let grouping_filters := q.filters.filter (fun f => f.group_by == some true)
    let string6 :=
      if grouping_filters.length > 0 then
        string5 ++ "\x7b" ++ String.intercalate "," (grouping_filters.map Filter.str) ++ "\x7d"
      else string5
    let non_grouping_filters := q.filters.filter (fun f => f.group_by == some false)
    let string7 :=
      if non_grouping_filters.length > 0 then
        string6 ++ "\x7b" ++ String.intercalate "," (non_grouping_filters.map Filter.str) ++ "\x7d"
      else string6
    .ok (MetricQueryBuilder.TYPE, string7)

/-- QueryBuilder.build dispatch: MetricQueryBuilder overrides build
(opentsdb.py line 415); TSUIDQueryBuilder (lines 465-467) inherits the
base stub which raises NotImplementedError (lines 408-409). -/
def QueryBuilder.build (q : QueryBuilder) : Except PyError (String × String) :=
  match q.kind with
  | .metric => MetricQueryBuilder.build q
  | .tsuid => .error .notImplementedError

/-- Values stored in the RequestBuilder parameter dict (Python is
dynamically typed; the client stores strings, ints, bools and the list
of sub-query builders under the "queries" key). -/
inductive PValue where
  | str (s : String)
  | int (n : Int)
  | bool (b : Bool)
  | queries (qs : List QueryBuilder)
deriving DecidableEq, Repr

/-- A Python dict, modelled as an insertion-ordered association list
with unique keys. -/
abbrev Params := List (String × PValue)

/-- Python dict assignment d[k] = v: replaces the value in place if the
key is present (keeping its position), otherwise appends at the end. -/
def dictSet : Params → String → PValue → Params
  | [], k, v => [(k, v)]
  | (k0, v0) :: rest, k, v =>
    if k0 == k then (k, v) :: rest else (k0, v0) :: dictSet rest k v

/-- Python dict.setdefault(k, v): inserts at the end only when the key
is absent. -/
def dictSetdefault (d : Params) (k : String) (v : PValue) : Params :=
  if d.any (fun kv => kv.1 == k) then d else d ++ [(k, v)]

/-- Lookup in the parameter dict. -/
def dictGet (d : Params) (k : String) : Option PValue :=
  (d.find? (fun kv => kv.1 == k)).map (fun kv => kv.2)

/-- Whether the dict has the given key. -/
def hasKey (d : Params) (k : String) : Bool :=
  d.any (fun kv => kv.1 == k)

/-- RequestBuilder (opentsdb.py lines 207-372): verb fixed at
construction plus the parameter dict.  These value-level operations
compute the parameter dict of the builder RETURNED by each mutator
(the pointer-aliasing behaviour of the copy.copy in the decorator is
modelled separately below with BuilderObj and a heap). -/
structure RequestBuilder where
  verb : String
  _parameters : Params
deriving DecidableEq, Repr

/-- RequestBuilder.__init__ (opentsdb.py lines 208-219): stores the
keyword parameters and setdefaults the "queries" key to the empty
list.  GetRequestBuilder passes verb "GET" and no extra parameters. -/
def RequestBuilder.mk0 (verb : String) (parameters : Params) : RequestBuilder :=
  ⟨verb, dictSetdefault parameters "queries" (.queries [])⟩

/-- RequestBuilder.start (opentsdb.py lines 230-242). -/
def RequestBuilder.start (b : RequestBuilder) (v : PValue) : RequestBuilder :=
  ⟨b.verb, dictSet b._parameters "start" v⟩

/-- RequestBuilder.end (opentsdb.py lines 244-256); end is a reserved
word in Lean, hence the trailing underscore. -/
def RequestBuilder.end_ (b : RequestBuilder) (v : PValue) : RequestBuilder :=
  ⟨b.verb, dictSet b._parameters "end" v⟩

/-- Appends a sub-query to the list stored under the "queries" key
(which always exists: __init__ setdefaults it). -/
def dictAppendQueries (d : Params) (q : QueryBuilder) : Params :=
  d.map (fun kv =>
    if kv.1 == "queries" then
      (kv.1, match kv.2 with
             | .queries qs => .queries (qs ++ [q])
             | v => v)
    else kv)

/-- RequestBuilder.query (opentsdb.py lines 258-270): appends the
sub-query builder to the "queries" list. -/
def RequestBuilder.query (b : RequestBuilder) (q : QueryBuilder) : RequestBuilder :=
  ⟨b.verb, dictAppendQueries b._parameters q⟩

/-- Extends the "queries" list with several sub-queries at once. -/
def dictExtendQueries (d : Params) (qs2 : List QueryBuilder) : Params :=
  d.map (fun kv =>
    if kv.1 == "queries" then
      (kv.1, match kv.2 with
             | .queries qs => .queries (qs ++ qs2)
             | v => v)
    else kv)

/-- RequestBuilder.add_queries (opentsdb.py lines 322-324). -/
def RequestBuilder.add_queries (b : RequestBuilder) (qs : List QueryBuilder) : RequestBuilder :=
  ⟨b.verb, dictExtendQueries b._parameters qs⟩

/-- RequestBuilder.no_annotations (opentsdb.py lines 272-284). -/
def RequestBuilder.no_annotations (b : RequestBuilder) (v : Bool) : RequestBuilder :=
  ⟨b.verb, dictSet b._parameters "no_annotations" (.bool v)⟩

/-- RequestBuilder.global_annotations (opentsdb.py lines 286-288). -/
def RequestBuilder.global_annotations (b : RequestBuilder) (v : Bool) : RequestBuilder :=
  ⟨b.verb, dictSet b._parameters "global_annotations" (.bool v)⟩

/-- RequestBuilder.ms_resolution (opentsdb.py lines 290-292). -/
def RequestBuilder.ms_resolution (b : RequestBuilder) (v : Bool) : RequestBuilder :=
  ⟨b.verb, dictSet b._parameters "ms_resolution" (.bool v)⟩

/-- RequestBuilder.show_tsuids (opentsdb.py lines 294-296). -/
def RequestBuilder.show_tsuids (b : RequestBuilder) (v : Bool) : RequestBuilder :=
  ⟨b.verb, dictSet b._parameters "show_tsuids" (.bool v)⟩

/-- RequestBuilder.show_summary (opentsdb.py lines 298-300). -/
def RequestBuilder.show_summary (b : RequestBuilder) (v : Bool) : RequestBuilder :=
  ⟨b.verb, dictSet b._parameters "show_summary" (.bool v)⟩

/-- RequestBuilder.show_stats (opentsdb.py lines 302-304). -/
def RequestBuilder.show_stats (b : RequestBuilder) (v : Bool) : RequestBuilder :=
  ⟨b.verb, dictSet b._parameters "show_stats" (.bool v)⟩

/-- RequestBuilder.show_query (opentsdb.py lines 306-308). -/
def RequestBuilder.show_query (b : RequestBuilder) (v : Bool) : RequestBuilder :=
  ⟨b.verb, dictSet b._parameters "show_query" (.bool v)⟩

/-- RequestBuilder.delete (opentsdb.py lines 310-312). -/
def RequestBuilder.delete (b : RequestBuilder) (v : Bool) : RequestBuilder :=
  ⟨b.verb, dictSet b._parameters "delete" (.bool v)⟩

/-- RequestBuilder.time_zone (opentsdb.py lines 314-316). -/
def RequestBuilder.time_zone (b : RequestBuilder) (v : String) : RequestBuilder :=
  ⟨b.verb, dictSet b._parameters "time_zone" (.str v)⟩

/-- RequestBuilder.use_calendar (opentsdb.py lines 318-320). -/
def RequestBuilder.use_calendar (b : RequestBuilder) (v : Bool) : RequestBuilder :=
  ⟨b.verb, dictSet b._parameters "use_calendar" (.bool v)⟩

/-- Builds every sub-query in order, stopping at the first raised
exception (the generator consumed by params.extend in
RequestBuilder.parameters, opentsdb.py line 348). -/
def buildAll : List QueryBuilder → Except PyError (List (String × PValue))
  | [] => .ok []
  | q :: rest =>
    match q.build with
    | .error e => .error e
    | .ok p =>
      match buildAll rest with
      | .error e => .error e
      | .ok t => .ok ((p.1, .str p.2) :: t)

/-- Recognises the dict entries expanded by RequestBuilder.parameters:
the key "queries" holding a non-empty list (opentsdb.py line 347). -/
def expandQueries (k : String) (v : PValue) : Option (List QueryBuilder) :=
  match v with
  | .queries qs => if k == "queries" && qs.length > 0 then some qs else none
  | _ => none

/-- RequestBuilder.parameters (opentsdb.py lines 339-351): walks the
dict in insertion order; the "queries" entry, when non-empty, expands
to one pair per sub-query via its build(); every other entry is
appended verbatim. -/
def paramsAssemble : Params → Except PyError (List (String × PValue))
  | [] => .ok []
  | (k, v) :: rest =>
    match expandQueries k v with
    | some qs =>
      match buildAll qs with
      | .error e => .error e
      | .ok built =>
        match paramsAssemble rest with
        | .error e => .error e
        | .ok t => .ok (built ++ t)
    | none =>
      match paramsAssemble rest with
      | .error e => .error e
      | .ok t => .ok ((k, v) :: t)

/-- The parameters() method on a builder. -/
def RequestBuilder.parametersList (b : RequestBuilder) : Except PyError (List (String × PValue)) :=
  paramsAssemble b._parameters

/-- RequestBuilder.run (opentsdb.py lines 357-362): validate() is a
pass, then build_request() calls parameters(); only when that
succeeds is the prepared request handed to the session.  The model
returns the parameter list that reaches the network, so an error
means no network call was made. -/
def RequestBuilder.run (b : RequestBuilder) : Except PyError (List (String × PValue)) :=
  b.parametersList

/-
Object-identity model of the builder decorator (utils.py lines
159-179).  A builder object holds a reference into a heap of parameter
dicts.  The decorator runs copy.copy(self) — a SHALLOW copy — so the
copied object carries the same _parameters reference as the receiver,
and the mutation the inner function performs on the dict is visible
through both objects.  (The docstring of the decorator says it will
deepcopy the instance; the code calls copy.copy.)
-/

/-- A builder object: its verb attribute and the heap reference held by
its _parameters attribute. -/
structure BuilderObj where
  verb : String
  ref : Nat
deriving DecidableEq, Repr

/-- The heap of parameter dicts; reference r denotes the r-th dict. -/
abbrev Heap := List Params

/-- Reads the dict a reference points to. -/
def heapGet (h : Heap) (r : Nat) : Params := h.getD r []

/-- copy.copy(self) (utils.py line 169): copies the object attributes;
the _parameters attribute is the same dict reference, not a copy. -/
def copyShallow (b : BuilderObj) : BuilderObj := ⟨b.verb, b.ref⟩

/-- b.start(v) under the decorator (utils.py lines 168-177 applied to
opentsdb.py lines 230-242): shallow-copy the object, then assign
self_copy._parameters["start"] = v, which mutates the dict both
objects reference; the copy is returned. -/
def startObj (h : Heap) (b : BuilderObj) (v : PValue) : Heap × BuilderObj :=
  let c := copyShallow b
  (h.set c.ref (dictSet (heapGet h c.ref) "start" v), c)

/-
Client metadata caching (opentsdb.py lines 7-180).  The server is
modelled by the JSON each fixed endpoint returns; JSON objects are
association lists, JSON arrays are lists.  Each accessor returns the
produced value, the updated cache, and the number of HTTP GETs the
access performed.
-/

/-- The responses the fixed endpoints of one server currently return. -/
structure ServerData where
  aggregatorsResp : List String
  filtersResp : List (String × String)
  versionResp : List (String × String)
  configResp : List (String × String)
deriving DecidableEq, Repr

/-- The mutable cache fields set up by Client.__init__ (opentsdb.py
lines 20-23): empty dict / empty list. -/
structure ClientState where
  server_filters : List (String × String)
  server_aggregators : List String
  server_version : List (String × String)
  server_config : List (String × String)
deriving DecidableEq, Repr

/-- Client.__init__ cache initialisation. -/
def ClientState.init : ClientState := ⟨[], [], [], []⟩

/-- Client.update_filters (opentsdb.py lines 53-56): one GET, cache
overwritten unconditionally. -/
def ClientState.update_filters (srv : ServerData) (c : ClientState) : ClientState × Nat :=
  ({ c with server_filters := srv.filtersResp }, 1)

/-- Client.filters property (opentsdb.py lines 58-67): refetches when
the cached dict is falsy (empty), else answers from the cache. -/
def ClientState.filters (srv : ServerData) (c : ClientState) :
    List (String × String) × ClientState × Nat :=
  if c.server_filters.isEmpty then
    let u := ClientState.update_filters srv c
    (u.1.server_filters, u.1, u.2)
  else (c.server_filters, c, 0)

/-- Client.update_aggregators (opentsdb.py lines 69-72). -/
def ClientState.update_aggregators (srv : ServerData) (c : ClientState) : ClientState × Nat :=
  ({ c with server_aggregators := srv.aggregatorsResp }, 1)

/-- Client.aggregators property (opentsdb.py lines 74-83): refetches
when the cached list is falsy (empty), else answers from the cache. -/
def ClientState.aggregators (srv : ServerData) (c : ClientState) :
    List String × ClientState × Nat :=
  if c.server_aggregators.isEmpty then
    let u := ClientState.update_aggregators srv c
    (u.1.server_aggregators, u.1, u.2)
  else (c.server_aggregators, c, 0)

/-- Client.update_version (opentsdb.py lines 85-106). -/
def ClientState.update_version (srv : ServerData) (c : ClientState) : ClientState × Nat :=
  ({ c with server_version := srv.versionResp }, 1)

/-- Client.version property (opentsdb.py lines 108-117). -/
def ClientState.version (srv : ServerData) (c : ClientState) :
    List (String × String) × ClientState × Nat :=
  if c.server_version.isEmpty then
    let u := ClientState.update_version srv c
    (u.1.server_version, u.1, u.2)
  else (c.server_version, c, 0)

/-- Client.update_config (opentsdb.py lines 119-169). -/
def ClientState.update_config (srv : ServerData) (c : ClientState) : ClientState × Nat :=
  ({ c with server_config := srv.configResp }, 1)

/-- Client.config property (opentsdb.py lines 171-180). -/
def ClientState.config (srv : ServerData) (c : ClientState) :
    List (String × String) × ClientState × Nat :=
  if c.server_config.isEmpty then
    let u := ClientState.update_config srv c
    (u.1.server_config, u.1, u.2)
  else (c.server_config, c, 0)


/-- Clause emitted for the aggregator. -/
def aggClause (q : QueryBuilder) : String := optNoneStr q.aggregator ++ ":"

/-- Clause emitted for the optional rate flag and rate options. -/
def rateClause (q : QueryBuilder) : String :=
  match q.rate with
  | none => ""
  | some r => pyBool r ++ (match q.rate_options with | none => "" | some ro => ro.str) ++ ":"

/-- Clause emitted for the optional downsample specification. -/
def downsampleClause (q : QueryBuilder) : String :=
  match q.downsample with
  | none => ""
  | some d => d ++ ":"

/-- Clause emitted for the optional percentiles list. -/
def percentilesClause (q : QueryBuilder) : String :=
  if q.percentiles.length > 0 then
    "percentiles[" ++ String.intercalate "," q.percentiles ++ "]:"
  else ""

/-- Clause emitted for the optional explicit-tags flag. -/
def explicitTagsClause (q : QueryBuilder) : String :=
  match q.explicit_tags with
  | none => ""
  | some b => pyBool b

/-- A brace-delimited filter block; empty when no filter qualifies. -/
def filterBlock (fs : List Filter) : String :=
  if fs.length > 0 then
    "\x7b" ++ String.intercalate "," (fs.map Filter.str) ++ "\x7d"
  else ""

/-- The filters partitioned into the grouping block. -/
def groupingFilters (q : QueryBuilder) : List Filter :=
  q.filters.filter (fun f => f.group_by == some true)

/-- The filters partitioned into the non-grouping block. -/
def nonGroupingFilters (q : QueryBuilder) : List Filter :=
  q.filters.filter (fun f => f.group_by == some false)

set_option maxHeartbeats 1000000 in
theorem metricBuild_eq (q : QueryBuilder) (m : String) (hm : q.metric = some m) :
    MetricQueryBuilder.build q =
      .ok (MetricQueryBuilder.TYPE,
        aggClause q ++ rateClause q ++ downsampleClause q ++ percentilesClause q ++
        explicitTagsClause q ++ m ++ filterBlock (groupingFilters q) ++
        filterBlock (nonGroupingFilters q)) := by
  obtain ⟨kind, agg, metric, rate, ro, ds, fs, et, ps, ru⟩ := q
  simp only [QueryBuilder.metric] at hm
  subst hm
  simp only [MetricQueryBuilder.build, aggClause, rateClause, downsampleClause,
    percentilesClause, explicitTagsClause, filterBlock, groupingFilters, nonGroupingFilters]
  cases rate <;> cases ro <;> cases ds <;> cases et <;>
    simp only [Except.ok.injEq, Prod.mk.injEq, true_and] <;>
    split_ifs <;>
    simp only [String.append_assoc, String.append_empty, String.empty_append]

/-
Dictionary lemmas.
-/

theorem dictSet_idem (d : Params) (k : String) (v : PValue) :
    dictSet (dictSet d k v) k v = dictSet d k v := by
  induction d with
  | nil => simp [dictSet]
  | cons kv rest ih =>
    obtain ⟨k0, v0⟩ := kv
    by_cases h : k0 = k
    · simp [dictSet, h]
    · simp [dictSet, h, ih]

theorem dictSet_cons_ne (k0 k : String) (v0 v : PValue) (d : Params) (h : k0 ≠ k) :
    dictSet ((k0, v0) :: d) k v = (k0, v0) :: dictSet d k v := by
  simp [dictSet, h]

theorem hasKey_dictSet_ne (d : Params) (k k2 : String) (v : PValue) (h : k ≠ k2) :
    hasKey (dictSet d k v) k2 = hasKey d k2 := by
  induction d with
  | nil => simp [dictSet, hasKey, h]
  | cons kv rest ih =>
    obtain ⟨k0, v0⟩ := kv
    by_cases h0 : k0 = k
    · subst h0
      simp [dictSet, hasKey]
    · simp only [dictSet, h0]
      simp only [beq_iff_eq, h0, if_false]
      simp [hasKey] at ih ⊢
      rw [ih]

/-
Lemmas about sub-query building and parameter assembly.
-/

theorem expandQueries_ne (k : String) (v : PValue) (h : k ≠ "queries") :
    expandQueries k v = none := by
  cases v <;> simp [expandQueries, h]

theorem paramsAssemble_noQueries (d : Params) (h : hasKey d "queries" = false) :
    paramsAssemble d = .ok d := by
  induction d with
  | nil => rfl
  | cons kv rest ih =>
    obtain ⟨k, v⟩ := kv
    simp only [hasKey, List.any_cons, Bool.or_eq_false_iff] at h
    obtain ⟨h1, h2⟩ := h
    have hk : k ≠ "queries" := by simpa using h1
    simp only [paramsAssemble, expandQueries_ne k v hk]
    rw [ih h2]

theorem paramsAssemble_cons_pass (k : String) (v : PValue) (d : Params)
    (h : k ≠ "queries") :
    paramsAssemble ((k, v) :: d) =
      (paramsAssemble d).map (fun t => (k, v) :: t) := by
  simp only [paramsAssemble, expandQueries_ne k v h]
  cases paramsAssemble d <;> rfl

theorem paramsAssemble_append (a b : Params) (ta tb : List (String × PValue))
    (ha : paramsAssemble a = .ok ta) (hb : paramsAssemble b = .ok tb) :
    paramsAssemble (a ++ b) = .ok (ta ++ tb) := by
  induction a generalizing ta with
  | nil =>
    simp only [paramsAssemble] at ha
    cases ha
    simpa using hb
  | cons kv rest ih =>
    obtain ⟨k, v⟩ := kv
    rw [List.cons_append]
    cases hq : expandQueries k v with
    | some qs =>
      simp only [paramsAssemble, hq] at ha ⊢
      cases hba : buildAll qs with
      | error e => simp [hba] at ha
      | ok built =>
        simp only [hba] at ha ⊢
        cases hr : paramsAssemble rest with
        | error e => simp [hr] at ha
        | ok t =>
          simp only [hr] at ha
          cases ha
          rw [ih t hr]
          simp
    | none =>
      simp only [paramsAssemble, hq] at ha ⊢
      cases hr : paramsAssemble rest with
      | error e => simp [hr] at ha
      | ok t =>
        simp only [hr] at ha
        cases ha
        rw [ih t hr]
        simp

theorem buildAll_forall2 (qs : List QueryBuilder) (bs : List (String × PValue))
    (h : buildAll qs = .ok bs) :
    List.Forall₂ (fun q kv => ∃ s, q.build = .ok (kv.1, s) ∧ kv.2 = PValue.str s) qs bs := by
  induction qs generalizing bs with
  | nil =>
    simp only [buildAll] at h
    cases h
    exact List.Forall₂.nil
  | cons q rest ih =>
    simp only [buildAll] at h
    cases hb : q.build with
    | error e => simp [hb] at h
    | ok p =>
      simp only [hb] at h
      cases hr : buildAll rest with
      | error e => simp [hr] at h
      | ok t =>
        simp only [hr] at h
        cases h
        exact List.Forall₂.cons ⟨p.2, by simp [hb], rfl⟩ (ih t hr)

theorem buildAll_error_of_mem (qs : List QueryBuilder) (q : QueryBuilder)
    (hmem : q ∈ qs) (hfail : ∀ p, q.build ≠ .ok p) :
    ∃ e, buildAll qs = .error e := by
  induction qs with
  | nil => cases hmem
  | cons q0 rest ih =>
    simp only [buildAll]
    cases hb : q0.build with
    | error e => exact ⟨e, rfl⟩
    | ok p =>
      rcases List.mem_cons.mp hmem with h | h
      · subst h
        exact absurd hb (hfail p)
      · obtain ⟨e, he⟩ := ih h
        rw [he]
        exact ⟨e, rfl⟩

theorem paramsAssemble_error_of_queries (d : Params) (qs : List QueryBuilder)
    (q : QueryBuilder) (hd : ("queries", PValue.queries qs) ∈ d) (hmem : q ∈ qs)
    (hfail : ∀ p, q.build ≠ .ok p) :
    ∃ e, paramsAssemble d = .error e := by
  induction d with
  | nil => cases hd
  | cons kv rest ih =>
    rcases List.mem_cons.mp hd with h | h
    · subst h
      have hqs : qs.length > 0 := List.length_pos.mpr (List.ne_nil_of_mem hmem)
      have hexp : expandQueries "queries" (PValue.queries qs) = some qs := by
        simp [expandQueries, hqs]
      simp only [paramsAssemble, hexp]
      obtain ⟨e, he⟩ := buildAll_error_of_mem qs q hmem hfail
      rw [he]
      exact ⟨e, rfl⟩
    · obtain ⟨k, v⟩ := kv
      cases hq : expandQueries k v with
      | some qs2 =>
        simp only [paramsAssemble, hq]
        cases hba : buildAll qs2 with
        | error e => simp only [hba]; exact ⟨e, rfl⟩
        | ok built =>
          simp only [hba]
          obtain ⟨e, he⟩ := ih h
          rw [he]
          exact ⟨e, rfl⟩
      | none =>
        simp only [paramsAssemble, hq]
        obtain ⟨e, he⟩ := ih h
        rw [he]
        exact ⟨e, rfl⟩

/-
The twelve key-setting builder mutators as a syntactic type, so that
statements can quantify over arbitrary sequences of mutator calls
that add no sub-query.
-/

/-- One key-setting mutator call (every RequestBuilder mutator except
query / add_queries / add_metric_query / add_tsuids_query). -/
inductive Setter where
  | start (v : PValue)
  | end_ (v : PValue)
  | no_annotations (v : Bool)
  | global_annotations (v : Bool)
  | ms_resolution (v : Bool)
  | show_tsuids (v : Bool)
  | show_summary (v : Bool)
  | show_stats (v : Bool)
  | show_query (v : Bool)
  | delete (v : Bool)
  | time_zone (v : String)
  | use_calendar (v : Bool)
deriving DecidableEq, Repr

/-- The dict key each key-setting mutator assigns. -/
def Setter.key : Setter → String
  | .start _ => "start"
  | .end_ _ => "end"
  | .no_annotations _ => "no_annotations"
  | .global_annotations _ => "global_annotations"
  | .ms_resolution _ => "ms_resolution"
  | .show_tsuids _ => "show_tsuids"
  | .show_summary _ => "show_summary"
  | .show_stats _ => "show_stats"
  | .show_query _ => "show_query"
  | .delete _ => "delete"
  | .time_zone _ => "time_zone"
  | .use_calendar _ => "use_calendar"

/-- The dict value each key-setting mutator assigns. -/
def Setter.val : Setter → PValue
  | .start v => v
  | .end_ v => v
  | .no_annotations v => .bool v
  | .global_annotations v => .bool v
  | .ms_resolution v => .bool v
  | .show_tsuids v => .bool v
  | .show_summary v => .bool v
  | .show_stats v => .bool v
  | .show_query v => .bool v
  | .delete v => .bool v
  | .time_zone v => .str v
  | .use_calendar v => .bool v

/-- Runs one key-setting mutator on a builder. -/
def Setter.apply : Setter → RequestBuilder → RequestBuilder
  | .start v, b => b.start v
  | .end_ v, b => b.end_ v
  | .no_annotations v, b => b.no_annotations v
  | .global_annotations v, b => b.global_annotations v
  | .ms_resolution v, b => b.ms_resolution v
  | .show_tsuids v, b => b.show_tsuids v
  | .show_summary v, b => b.show_summary v
  | .show_stats v, b => b.show_stats v
  | .show_query v, b => b.show_query v
  | .delete v, b => b.delete v
  | .time_zone v, b => b.time_zone v
  | .use_calendar v, b => b.use_calendar v

/-- Runs a sequence of key-setting mutator calls left to right. -/
def Setter.applyAll : List Setter → RequestBuilder → RequestBuilder
  | [], b => b
  | s :: rest, b => Setter.applyAll rest (s.apply b)

theorem Setter.apply_eq (s : Setter) (b : RequestBuilder) :
    s.apply b = ⟨b.verb, dictSet b._parameters s.key s.val⟩ := by
  cases s <;> rfl

theorem Setter.key_ne_queries (s : Setter) : s.key ≠ "queries" := by
  cases s <;> simp [Setter.key]

/-- Invariant for C10: the dict starts with the defaulted empty queries
entry and no later entry uses the "queries" key. -/
def QueriesFirst (d : Params) : Prop :=
  ∃ rest, d = ("queries", PValue.queries []) :: rest ∧ hasKey rest "queries" = false

theorem queriesFirst_dictSet (d : Params) (k : String) (v : PValue)
    (hk : k ≠ "queries") (h : QueriesFirst d) : QueriesFirst (dictSet d k v) := by
  obtain ⟨rest, hd, hrest⟩ := h
  subst hd
  rw [dictSet_cons_ne _ _ _ _ _ (fun heq => hk heq.symm)]
  exact ⟨dictSet rest k v, rfl, by rw [hasKey_dictSet_ne rest k "queries" v hk]; exact hrest⟩

theorem queriesFirst_applyAll (ss : List Setter) (b : RequestBuilder)
    (h : QueriesFirst b._parameters) : QueriesFirst ((Setter.applyAll ss b)._parameters) := by
  induction ss generalizing b with
  | nil => exact h
  | cons s rest ih =>
    simp only [Setter.applyAll]
    exact ih (s.apply b)
      (by rw [Setter.apply_eq]
          exact queriesFirst_dictSet _ _ _ (Setter.key_ne_queries s) h)

theorem paramsAssemble_queriesFirst (d : Params) (h : QueriesFirst d) :
    ∃ t, paramsAssemble d = .ok (("queries", PValue.queries []) :: t) := by
  obtain ⟨rest, hd, hrest⟩ := h
  subst hd
  have hexp : expandQueries "queries" (PValue.queries []) = none := by
    simp [expandQueries]
  simp only [paramsAssemble, hexp]
  rw [paramsAssemble_noQueries rest hrest]
  exact ⟨rest, rfl⟩

/-
Concrete inputs used by the documented examples and witnesses.
-/

/-- The documented metric sub-query example: aggregator avg, metric
temperature, downsample 1d-avg, one grouping wildcard filter on app. -/
def exampleSubQuery : QueryBuilder :=
  { kind := .metric, aggregator := some "avg", metric := some "temperature",
    downsample := some "1d-avg",
    filters := [{ type := some "wildcard", tagk := some "app", filter := some "*",
                  group_by := some true }] }

/-- The documented GET request example built by the chain
client.get().start(1546297200).end(1548975600).query(exampleSubQuery). -/
def exampleGetRequest : RequestBuilder :=
  (((RequestBuilder.mk0 "GET" []).start (.int 1546297200)).end_
      (.int 1548975600)).query exampleSubQuery

/-- A sub-query mixing grouping, non-grouping and ungrouped filters. -/
def mixedSubQuery : QueryBuilder :=
  { kind := .metric, aggregator := some "sum", metric := some "sys.cpu.user",
    filters := [
      { type := some "wildcard", tagk := some "host", filter := some "*",
        group_by := some true },
      { type := some "literal_or", tagk := some "dc", filter := some "lga,ord",
        group_by := some false },
      { type := some "regexp", tagk := some "env", filter := some "prod",
        group_by := none } ] }

/-- A metric sub-query with only defaults set. -/
def emptyMetricQuery : QueryBuilder := { kind := .metric }

/-- A metric sub-query whose aggregator was never set. -/
def noAggSubQuery : QueryBuilder := { kind := .metric, metric := some "temp" }

/-- A TSUID sub-query. -/
def tsuidSubQuery : QueryBuilder :=
  { kind := .tsuid, aggregator := some "sum", metric := some "000001000002000042" }

/-- A server whose metadata endpoints all return empty JSON. -/
def emptyServer : ServerData := ⟨[], [], [], []⟩

/-- A server whose metadata endpoints return non-empty JSON. -/
def nonEmptyServer : ServerData :=
  ⟨["avg"], [("wildcard", "desc")], [("version", "2.0.0")], [("tsd.network.port", "4242")]⟩

/-
The claims.
-/

/-- C1: MetricQueryBuilder(aggregator avg, metric temperature,
downsample 1d-avg, one grouping wildcard filter on app).build() returns
exactly the pair ("m", "avg:1d-avg:temperature\x7bapp=wildcard(*)\x7d"), and in
general build() emits, in order: aggregator plus colon, the optional
rate clause, the optional downsample plus colon, the optional
percentiles clause, the optional explicit-tags flag, the metric name,
then the filter blocks. -/
theorem claim_C1 :
    QueryBuilder.build exampleSubQuery =
      .ok ("m", "avg:1d-avg:temperature\x7bapp=wildcard(*)\x7d") ∧
    ∀ (q : QueryBuilder) (m : String), q.kind = .metric → q.metric = some m →
      q.build = .ok (MetricQueryBuilder.TYPE,
        aggClause q ++ rateClause q ++ downsampleClause q ++ percentilesClause q ++
        explicitTagsClause q ++ m ++ filterBlock (groupingFilters q) ++
        filterBlock (nonGroupingFilters q)) := by
  refine ⟨rfl, fun q m hk hm => ?_⟩
  simp only [QueryBuilder.build, hk]
  exact metricBuild_eq q m hm

/-- Witness for C1 at the documented example input. -/
theorem claim_C1_witness :
    QueryBuilder.build exampleSubQuery =
      .ok (MetricQueryBuilder.TYPE,
        aggClause exampleSubQuery ++ rateClause exampleSubQuery ++
        downsampleClause exampleSubQuery ++ percentilesClause exampleSubQuery ++
        explicitTagsClause exampleSubQuery ++ "temperature" ++
        filterBlock (groupingFilters exampleSubQuery) ++
        filterBlock (nonGroupingFilters exampleSubQuery)) :=
  claim_C1.2 exampleSubQuery "temperature" rfl rfl

/-- C2: in the serialized output of every metric sub-query, the
brace-delimited block of grouping filters precedes the block of
non-grouping filters, each block preserves the relative insertion order
of the filters list (they are sublists of it), and filters whose
group_by is None are excluded from both blocks. -/
theorem claim_C2 (q : QueryBuilder) (m : String) (hk : q.kind = .metric)
    (hm : q.metric = some m) :
    (∃ head, q.build = .ok (MetricQueryBuilder.TYPE,
        head ++ m ++ filterBlock (groupingFilters q) ++
        filterBlock (nonGroupingFilters q))) ∧
    List.Sublist (groupingFilters q) q.filters ∧
    List.Sublist (nonGroupingFilters q) q.filters ∧
    (∀ f ∈ q.filters, f.group_by = none →
      f ∉ groupingFilters q ∧ f ∉ nonGroupingFilters q) := by
  refine ⟨⟨aggClause q ++ rateClause q ++ downsampleClause q ++ percentilesClause q ++
      explicitTagsClause q, ?_⟩, List.filter_sublist q.filters,
      List.filter_sublist q.filters, fun f hf hnone => ?_⟩
  · simp only [QueryBuilder.build, hk]
    exact metricBuild_eq q m hm
  · constructor <;> simp [groupingFilters, nonGroupingFilters, List.mem_filter, hnone]

/-- Witness for C2 at a sub-query mixing grouping, non-grouping and
ungrouped filters. -/
theorem claim_C2_witness :
    ∃ head, QueryBuilder.build mixedSubQuery = .ok (MetricQueryBuilder.TYPE,
      head ++ "sys.cpu.user" ++ filterBlock (groupingFilters mixedSubQuery) ++
      filterBlock (nonGroupingFilters mixedSubQuery)) :=
  (claim_C2 mixedSubQuery "sys.cpu.user" rfl rfl).1

/-- C3: evaluation of the code at the failing input.  The builder
decorator runs copy.copy, so b2 = b1.start("100") leaves b2 holding the
same _parameters dict reference as b1 (second conjunct), and after the
call the dict observed through b1 contains start = "100" (first
conjunct) — the receiver does NOT stay unchanged as the claim and the
docstring of the decorator (which says it will deepcopy) state. -/
theorem claim_C3 :
    dictGet (heapGet ((startObj [dictSetdefault [] "queries" (.queries [])]
        ⟨"GET", 0⟩ (.str "100")).1) 0) "start" = some (.str "100") ∧
    ((startObj [dictSetdefault [] "queries" (.queries [])]
        ⟨"GET", 0⟩ (.str "100")).2).ref = 0 :=
  ⟨rfl, rfl⟩

/-- C4: parameter assembly walks the dict in insertion order; the
queries field expands to one (tag, body) pair per sub-query in
insertion order; every other entry contributes exactly the one pair it
stores (fields never set are simply absent from the dict); the
documented GET example yields exactly the three documented pairs. -/
theorem claim_C4 :
    exampleGetRequest.parametersList =
      .ok [("m", .str "avg:1d-avg:temperature\x7bapp=wildcard(*)\x7d"),
           ("start", .int 1546297200), ("end", .int 1548975600)] ∧
    (∀ (d1 d2 : Params) (qs : List QueryBuilder) (bs t1 t2 : List (String × PValue)),
      qs ≠ [] → buildAll qs = .ok bs → paramsAssemble d1 = .ok t1 →
      paramsAssemble d2 = .ok t2 →
      paramsAssemble (d1 ++ ("queries", PValue.queries qs) :: d2) =
        .ok (t1 ++ bs ++ t2)) ∧
    (∀ (qs : List QueryBuilder) (bs : List (String × PValue)),
      buildAll qs = .ok bs →
      List.Forall₂ (fun q kv => ∃ s, q.build = .ok (kv.1, s) ∧ kv.2 = PValue.str s) qs bs) ∧
    (∀ (k : String) (v : PValue) (d : Params), k ≠ "queries" →
      paramsAssemble ((k, v) :: d) = (paramsAssemble d).map (fun t => (k, v) :: t)) := by
  refine ⟨rfl, ?_, buildAll_forall2, paramsAssemble_cons_pass⟩
  intro d1 d2 qs bs t1 t2 hne hb h1 h2
  have hexp : expandQueries "queries" (PValue.queries qs) = some qs := by
    simp [expandQueries, List.length_pos.mpr hne]
  have hmid : paramsAssemble (("queries", PValue.queries qs) :: d2) = .ok (bs ++ t2) := by
    simp only [paramsAssemble, hexp, hb, h2]
  have := paramsAssemble_append d1 _ t1 (bs ++ t2) h1 hmid
  simpa [List.append_assoc] using this

/-- Witness for C4: the expansion law applied at a concrete dict. -/
theorem claim_C4_witness :
    paramsAssemble ([("start", PValue.int 1546297200)] ++
        ("queries", PValue.queries [exampleSubQuery]) :: []) =
      .ok ([("start", PValue.int 1546297200)] ++
        [("m", PValue.str "avg:1d-avg:temperature\x7bapp=wildcard(*)\x7d")] ++ []) :=
  claim_C4.2.1 [("start", .int 1546297200)] [] [exampleSubQuery]
    [("m", .str "avg:1d-avg:temperature\x7bapp=wildcard(*)\x7d")]
    [("start", .int 1546297200)] [] (by simp) rfl rfl rfl

/-- C5 counterexample: the query mutator is not idempotent — applying
it twice with the same sub-query appends the sub-query twice, so the
claim is false as stated for "every mutator". -/
theorem claim_C5_counterexample :
    (((RequestBuilder.mk0 "GET" []).query emptyMetricQuery).query
        emptyMetricQuery)._parameters ≠
      ((RequestBuilder.mk0 "GET" []).query emptyMetricQuery)._parameters := by
  decide

/-- C5 amended: every key-setting mutator (start, end, the nine flag
setters and time_zone) is idempotent — applying it twice with the same
value yields the same builder as applying it once; the sub-query
appending mutators (query, add_queries, add_metric_query,
add_tsuids_query) are excluded, as they append on every call. -/
theorem claim_C5 (b : RequestBuilder) (v : PValue) (s : String) (x : Bool) :
    (b.start v).start v = b.start v ∧
    (b.end_ v).end_ v = b.end_ v ∧
    (b.no_annotations x).no_annotations x = b.no_annotations x ∧
    (b.global_annotations x).global_annotations x = b.global_annotations x ∧
    (b.ms_resolution x).ms_resolution x = b.ms_resolution x ∧
    (b.show_tsuids x).show_tsuids x = b.show_tsuids x ∧
    (b.show_summary x).show_summary x = b.show_summary x ∧
    (b.show_stats x).show_stats x = b.show_stats x ∧
    (b.show_query x).show_query x = b.show_query x ∧
    (b.delete x).delete x = b.delete x ∧
    (b.time_zone s).time_zone s = b.time_zone s ∧
    (b.use_calendar x).use_calendar x = b.use_calendar x := by
  refine ⟨?_, ?_, ?_, ?_, ?_, ?_, ?_, ?_, ?_, ?_, ?_, ?_⟩ <;>
    simp [RequestBuilder.start, RequestBuilder.end_, RequestBuilder.no_annotations,
      RequestBuilder.global_annotations, RequestBuilder.ms_resolution,
      RequestBuilder.show_tsuids, RequestBuilder.show_summary,
      RequestBuilder.show_stats, RequestBuilder.show_query, RequestBuilder.delete,
      RequestBuilder.time_zone, RequestBuilder.use_calendar, dictSet_idem]

/-- Witness for C5 at a concrete builder and value. -/
theorem claim_C5_witness :
    ((RequestBuilder.mk0 "GET" []).start (PValue.int 7)).start (PValue.int 7) =
      (RequestBuilder.mk0 "GET" []).start (PValue.int 7) :=
  (claim_C5 (RequestBuilder.mk0 "GET" []) (PValue.int 7) "UTC" true).1

/-- C6: RateOptions serializes to the brace-enclosed comma-joined
positional triple counter, counter_max, reset_value with the empty
string at any unset position; with no fields set the result is the
literal open-brace comma comma close-brace; drop_resets never affects
the output. -/
theorem claim_C6 :
    RateOptions.str {} = "\x7b,,\x7d" ∧
    (∀ (c : Option Bool) (cm rv : Option Int) (dr : Option Bool),
      RateOptions.str ⟨c, cm, rv, dr⟩ =
        "\x7b" ++ (match c with | none => "" | some b => pyBool b) ++ ","
              ++ (match cm with | none => "" | some n => toString n) ++ ","
              ++ (match rv with | none => "" | some n => toString n) ++ "\x7d") ∧
    (∀ (r : RateOptions) (dr : Option Bool),
      RateOptions.str { r with drop_resets := dr } = RateOptions.str r) :=
  ⟨rfl, fun _ _ _ _ => rfl, fun _ _ => rfl⟩

/-- The RateOptions value used by the repository test file. -/
def exampleRateOptions : RateOptions :=
  { counter := some false, counter_max := some 100, reset_value := some 1000 }

/-- Witness for C6: drop_resets does not change the serialization at a
concrete input. -/
theorem claim_C6_witness :
    RateOptions.str { exampleRateOptions with drop_resets := some true } =
      RateOptions.str exampleRateOptions :=
  claim_C6.2.2 exampleRateOptions (some true)

/-- C7: evaluation of the code at the failing input.  With a server
whose endpoint returns empty JSON, the first access fetches once and
the second access fetches AGAIN (falsy-check refetch), contradicting
the claim that every subsequent access is served from the cache; with
a non-empty response the second access indeed performs no fetch. -/
theorem claim_C7 :
    (ClientState.aggregators emptyServer ClientState.init).2.2 = 1 ∧
    (ClientState.aggregators emptyServer
      (ClientState.aggregators emptyServer ClientState.init).2.1).2.2 = 1 ∧
    (ClientState.filters emptyServer
      (ClientState.filters emptyServer ClientState.init).2.1).2.2 = 1 ∧
    (ClientState.aggregators nonEmptyServer
      (ClientState.aggregators nonEmptyServer ClientState.init).2.1).2.2 = 0 ∧
    (ClientState.filters nonEmptyServer
      (ClientState.filters nonEmptyServer ClientState.init).2.1).2.2 = 0 :=
  ⟨rfl, rfl, rfl, rfl, rfl⟩

/-- C8 counterexample: a sub-query missing its aggregator does NOT fail
at build time — build succeeds and returns a malformed token with the
text None in the aggregator position. -/
theorem claim_C8_counterexample :
    QueryBuilder.build noAggSubQuery = .ok ("m", "None:temp") := rfl

/-- C8 amended: a sub-query missing its metric name fails at build time
(TypeError from concatenating None onto a str) and request assembly
errors before any network call; a sub-query missing only its aggregator
does not fail (see the counterexample). -/
theorem claim_C8 :
    (∀ q : QueryBuilder, q.kind = .metric → q.metric = none →
      q.build = .error .typeError) ∧
    (∀ (b : RequestBuilder) (qs : List QueryBuilder) (q : QueryBuilder),
      ("queries", PValue.queries qs) ∈ b._parameters → q ∈ qs →
      q.kind = .metric → q.metric = none → ∃ e, b.run = .error e) := by
  have h1 : ∀ q : QueryBuilder, q.kind = .metric → q.metric = none →
      q.build = .error .typeError := by
    intro q hk hm
    simp only [QueryBuilder.build, hk, MetricQueryBuilder.build, hm]
  refine ⟨h1, fun b qs q hd hmem hk hm => ?_⟩
  exact paramsAssemble_error_of_queries b._parameters qs q hd hmem
    (fun p hp => by rw [h1 q hk hm] at hp; cases hp)

/-- Witness for C8 at a concrete metric sub-query with no metric. -/
theorem claim_C8_witness :
    QueryBuilder.build { kind := .metric, aggregator := some "avg" } =
      .error .typeError :=
  claim_C8.1 { kind := .metric, aggregator := some "avg" } rfl rfl

/-- C9: every TSUID sub-query raises NotImplementedError from the
inherited build stub, and a request whose queries list contains a TSUID
sub-query errors during parameter assembly instead of returning a
parameter list. -/
theorem claim_C9 :
    (∀ q : QueryBuilder, q.kind = .tsuid → q.build = .error .notImplementedError) ∧
    (∀ (b : RequestBuilder) (qs : List QueryBuilder) (q : QueryBuilder),
      ("queries", PValue.queries qs) ∈ b._parameters → q ∈ qs → q.kind = .tsuid →
      ∃ e, b.parametersList = .error e) := by
  have h1 : ∀ q : QueryBuilder, q.kind = .tsuid →
      q.build = .error .notImplementedError := by
    intro q hk
    simp only [QueryBuilder.build, hk]
  refine ⟨h1, fun b qs q hd hmem hk => ?_⟩
  exact paramsAssemble_error_of_queries b._parameters qs q hd hmem
    (fun p hp => by rw [h1 q hk] at hp; cases hp)

/-- Witness for C9 at a request holding one concrete TSUID sub-query. -/
theorem claim_C9_witness :
    ∃ e, ((RequestBuilder.mk0 "GET" []).query tsuidSubQuery).parametersList =
      .error e :=
  claim_C9.2 ((RequestBuilder.mk0 "GET" []).query tsuidSubQuery)
    [tsuidSubQuery] tsuidSubQuery (by decide) (by decide) rfl

/-- C10: a builder to which no sub-query was added still emits the pair
("queries", empty list): after any sequence of key-setting mutator
calls on a builder constructed without keyword parameters that pair is
the FIRST one in the assembled list, and for a builder constructed from
keyword parameters lacking a queries key the defaulted pair is included
at the end. -/
theorem claim_C10 :
    (∀ (verb : String) (ss : List Setter),
      ∃ t, (Setter.applyAll ss (RequestBuilder.mk0 verb [])).parametersList =
        .ok (("queries", PValue.queries []) :: t)) ∧
    (∀ (verb : String) (kw : Params) (t : List (String × PValue)),
      hasKey kw "queries" = false → paramsAssemble kw = .ok t →
      (RequestBuilder.mk0 verb kw).parametersList =
        .ok (t ++ [("queries", PValue.queries [])])) := by
  constructor
  · intro verb ss
    apply paramsAssemble_queriesFirst
    apply queriesFirst_applyAll
    exact ⟨[], rfl, rfl⟩
  · intro verb kw t hk hok
    have hmk : (RequestBuilder.mk0 verb kw)._parameters =
        kw ++ [("queries", PValue.queries [])] := by
      simp only [hasKey] at hk
      simp [RequestBuilder.mk0, dictSetdefault, hk]
    rw [RequestBuilder.parametersList, hmk]
    exact paramsAssemble_append kw _ t _ hok rfl

/-- Witness for C10 at a builder constructed from one keyword pair. -/
theorem claim_C10_witness :
    (RequestBuilder.mk0 "GET" [("start", PValue.int 5)]).parametersList =
      .ok ([("start", PValue.int 5)] ++ [("queries", PValue.queries [])]) :=
  claim_C10.2 "GET" [("start", PValue.int 5)] [("start", PValue.int 5)] rfl rfl

end OpenTSDB

